import Mathlib

/-!
# Verification of the attendance-app scheduling and geofence engine

Shallow embedding of the Node.js backend (`src/server.js`, plus the later
iteration in `src/unnamed/part_002` that adds the correction endpoints
`/remove-present`, `/proxy-done` and `/class-cancelled`).

Modelling conventions:
* JavaScript numbers that the code only ever uses as integer milliseconds,
  minutes or day-of-month values are modelled as `Int`/`Nat`; a value that can
  be `NaN` (the result of `Number(...)` on a malformed string) is modelled as
  an `Option Nat` with `none` standing for `NaN`.  JS comparisons involving
  `NaN` are false, which the `jsLt...` helpers reproduce.
* Geographic coordinates and distances are JS floats; they are idealised as
  real numbers (`ℝ`), which is the reading the spec itself takes
  ("haversine angle terms in radians; distance in meters").
* A Firestore attendance document `{ present: [...], absent: [...] }` is the
  structure `Attendance`; `FieldValue.arrayUnion` / `arrayRemove` are the
  functions `arrayUnion` / `arrayRemove` (Firestore's arrayUnion appends an
  element only when it is not already in the array, arrayRemove removes all
  occurrences).
* A thrown JS exception that is caught by an enclosing `try` is modelled with
  `Except`.
-/

/-- Firestore `FieldValue.arrayUnion(d)` applied to a stored array `xs`:
the element is appended only if it is not already present. -/
def arrayUnion (xs : List Int) (d : Int) : List Int :=
  if d ∈ xs then xs else xs ++ [d]

/-- Firestore `FieldValue.arrayRemove(d)` applied to a stored array `xs`:
all occurrences of `d` are removed. -/
def arrayRemove (xs : List Int) (d : Int) : List Int :=
  xs.filter (fun x => x ≠ d)

/-- An attendance document `/users/{u}/subjects/{s}/attendance/{monthYear}`:
two arrays of day-of-month numbers (`server.js` line 115:
`attendanceDoc.data() || { present: [], absent: [] }`). -/
structure Attendance where
  present : List Int
  absent : List Int
  deriving DecidableEq, Repr

/-- The exclusivity invariant of the spec: a given day-of-month appears in at
most one of the two sets of a record. -/
def ExclusiveDays (att : Attendance) : Prop :=
  ∀ d : Int, d ∈ att.present → d ∉ att.absent

/-! ## Geo math (`calculateDistance`, `server.js` lines 37-50) -/

/-- JavaScript `Math.atan2(y, x)`. -/
noncomputable def atan2 (y x : ℝ) : ℝ :=
  if 0 < x then Real.arctan (y / x)
  else if x < 0 then
    (if 0 ≤ y then Real.arctan (y / x) + Real.pi
     else Real.arctan (y / x) - Real.pi)
  else if 0 < y then Real.pi / 2
  else if y < 0 then -(Real.pi / 2)
  else 0

/-- Haversine great-circle distance in meters, Earth radius `6371e3`
(`server.js` lines 37-50). -/
noncomputable def calculateDistance (lat1 lon1 lat2 lon2 : ℝ) : ℝ :=
  let R : ℝ := 6371000
  let phi1 := lat1 * Real.pi / 180
  let phi2 := lat2 * Real.pi / 180
  let dphi := (lat2 - lat1) * Real.pi / 180
  let dlam := (lon2 - lon1) * Real.pi / 180
  let a := Real.sin (dphi / 2) * Real.sin (dphi / 2) +
    Real.cos phi1 * Real.cos phi2 *
    (Real.sin (dlam / 2) * Real.sin (dlam / 2))
  let c := 2 * atan2 (Real.sqrt a) (Real.sqrt (1 - a))
  R * c

/-! ## Time parsing (`timeToMinutes`, `server.js` lines 60-63)

`timeStr.split(':').map(Number)` destructured into `[hours, minutes]`;
`Number` of a malformed component is `NaN` and a missing component is
`undefined`, either of which makes `hours * 60 + minutes` evaluate to `NaN`.
`NaN` is modelled as `none`. -/

/-- `String.prototype.split(sep)` on the character list of a string, for a
one-character separator (the code only splits on `":"` and `"-"`). -/
def splitOnChAux (sep : Char) : List Char → List Char → List (List Char)
  | [], acc => [acc.reverse]
  | c :: rest, acc =>
    if c = sep then acc.reverse :: splitOnChAux sep rest []
    else splitOnChAux sep rest (c :: acc)

/-- JavaScript `s.split(sep)` for a one-character separator. -/
def jsSplit (s : String) (sep : Char) : List String :=
  (splitOnChAux sep s.data []).map (fun cs => String.mk cs)

/-- The numeric value of an ASCII digit. -/
def digitVal (c : Char) : Option Nat :=
  if '0' ≤ c ∧ c ≤ '9' then some (c.toNat - '0'.toNat) else none

/-- Decimal parse of a character list; `none` on any non-digit. -/
def parseNatAux : List Char → Nat → Option Nat
  | [], acc => some acc
  | c :: rest, acc =>
    match digitVal c with
    | some d => parseNatAux rest (acc * 10 + d)
    | none => none

/-- JavaScript `s.trim()` (ASCII space; the schedule strings contain no
other whitespace). -/
def jsTrim (s : String) : String :=
  String.mk (((s.data.dropWhile (fun c => c = ' ')).reverse.dropWhile
    (fun c => c = ' ')).reverse)

/-- JavaScript `Number(s)` restricted to the inputs the schedule code feeds
it: the empty string converts to `0`, a digit string to its value, anything
else to `NaN` (`none`).  Fractional/signed/whitespace forms do not occur in
`"HH:MM"` schedule data and are out of scope. -/
def jsNum (s : String) : Option Nat :=
  match s.data with
  | [] => some 0
  | l => parseNatAux l 0

/-- `server.js` lines 60-63.  `none` is `NaN`. -/
def timeToMinutes (timeStr : String) : Option Nat :=
  match (jsSplit timeStr ':').map jsNum with
  | [] => none
  | [_] => none
  | h :: m :: _ =>
    match h, m with
    | some hv, some mv => some (hv * 60 + mv)
    | _, _ => none

/-- JS `a < b` where `a` may be `NaN` (`none`): any comparison with `NaN`
is false. -/
def jsLtNat (a : Option Nat) (b : Nat) : Bool :=
  match a with
  | some v => v < b
  | none => false

/-! ## Schedule-entry normalization (`scanAndQueueClasses`, `server.js`
lines 300-356)

A day's entry in `subjectData.schedule` is either an array of
`{start, end}` objects (lines 302-344), or — in the `else` branch
(lines 345-356) — a value on which `daySchedule.split('-')` is called, which
only a string supports: calling `.split` on a plain object raises a
`TypeError` that propagates to the scan's outer `catch`. -/

/-- The raw shapes a day entry can take in the stored schedule JSON. -/
inductive DayEntry where
  /-- an array of objects, each with optional `start`/`end` strings -/
  | arr (items : List (Option String × Option String))
  /-- a single `{start, end}` object -/
  | objEntry (startStr endStr : Option String)
  /-- a `"HH:MM-HH:MM"` string -/
  | strEntry (s : String)
  deriving DecidableEq, Repr

/-- The minute intervals `server.js` extracts from one day entry.
`Except.error` is a thrown `TypeError` (`.split`/`.trim` on a non-string or
`undefined`), caught only by the scan's outer `catch`.
In the array branch an item lacking a truthy `start` or `end` is skipped
(line 304: `if (!classTime.start || !classTime.end) continue`). -/
def normalizeDayEntry : DayEntry → Except Unit (List (Option Nat × Option Nat))
  | .arr items =>
    .ok (items.filterMap fun it =>
      match it with
      | (some s, some e) =>
        if s = "" ∨ e = "" then none
        else some (timeToMinutes s, timeToMinutes e)
      | _ => none)
  | .objEntry _ _ => .error ()
  | .strEntry s =>
    match jsSplit s '-' with
    | t1 :: t2 :: _ => .ok [(timeToMinutes (jsTrim t1), timeToMinutes (jsTrim t2))]
    | _ => .error ()

/-! ## Queueing one location request (`queueLocationRequest`, `server.js`
lines 202-260) -/

/-- What `queueLocationRequest` decides to do.  A queued request carries its
`delayMinutes` value, which is `NaN` (`none`) when the interval minutes were
`NaN`. -/
inductive QueueAction where
  /-- `delayMinutes < 0` and `currentMinutes > endMinutes`: return without
  queueing (line 214) -/
  | skipEnded
  /-- the `userId_subjectId_currentDate` key is already in the queue
  (line 224) -/
  | alreadyQueued
  /-- a timeout is registered with the given delay in minutes (line 232) -/
  | queued (delayMinutes : Option Int)
  deriving DecidableEq, Repr

/-- `Math.floor((startMinutes + endMinutes) / 2)` with `NaN` propagation. -/
def jsMidpoint (a b : Option Nat) : Option Nat :=
  match a, b with
  | some x, some y => some ((x + y) / 2)
  | _, _ => none

/-- `middleMinutes - currentMinutes` as a JS number (`NaN` propagates). -/
def jsDelay (middle : Option Nat) (current : Nat) : Option Int :=
  match middle with
  | some m => some ((m : Int) - (current : Int))
  | none => none

/-- JS `a < 0` with `NaN` false. -/
def jsNegative (a : Option Int) : Bool :=
  match a with
  | some v => v < 0
  | none => false

/-- `setTimeout(f, delayMinutes * 60 * 1000)`: `setTimeout` coerces a `NaN`
timeout to `0` and clamps negative values to `0`, so this is the effective
delay in milliseconds. -/
def effectiveDelayMs (delayMinutes : Option Int) : Int :=
  match delayMinutes with
  | some v => max v 0 * 60000
  | none => 0

/-- `server.js` lines 202-260, the pure decision part: `startMinutes` and
`endMinutes` are the (possibly `NaN`) parsed minutes, `currentMinutes` the
scan's minute-of-day now, `alreadyQueued` whether the
`userId_subjectId_currentDate` key is in `locationRequestQueue`. -/
def queueLocationRequest (startMinutes endMinutes : Option Nat)
    (currentMinutes : Nat) (alreadyQueued : Bool) : QueueAction :=
  let middleMinutes := jsMidpoint startMinutes endMinutes
  let delayMinutes := jsDelay middleMinutes currentMinutes
  if jsNegative delayMinutes then
    if (match endMinutes with
        | some e => decide (currentMinutes ≤ e)
        | none => false) then
      (if alreadyQueued then .alreadyQueued else .queued (some 0))
    else .skipEnded
  else
    (if alreadyQueued then .alreadyQueued else .queued delayMinutes)

/-! ## One item of the array branch of the scan (`server.js` lines 303-344) -/

/-- Outcome for a single `classTime` item of an array day entry. -/
inductive ScanItemAction where
  /-- `!classTime.start || !classTime.end` (line 304) -/
  | skippedNoTimes
  /-- `endMinutes < currentMinutes` (line 311) -/
  | skippedFinished
  /-- today's day already in `present` or `absent` (lines 328-332) -/
  | skippedAlreadyMarked
  /-- `queueLocationRequest` was called and took the given action -/
  | queueAction (a : QueueAction)
  deriving DecidableEq, Repr

/-- `server.js` lines 303-344 for one `classTime` item: `alreadyMarked` is
the attendance pre-check result for today, `alreadyQueued` the queue-key
check inside `queueLocationRequest`. -/
def scanArrayItem (startStr endStr : Option String) (currentMinutes : Nat)
    (alreadyMarked alreadyQueued : Bool) : ScanItemAction :=
  match startStr, endStr with
  | some s, some e =>
    if s = "" ∨ e = "" then .skippedNoTimes
    else
      let startMinutes := timeToMinutes s
      let endMinutes := timeToMinutes e
      if jsLtNat endMinutes currentMinutes then .skippedFinished
      else if alreadyMarked then .skippedAlreadyMarked
      else .queueAction (queueLocationRequest startMinutes endMinutes
        currentMinutes alreadyQueued)
  | _, _ => .skippedNoTimes

/-! ## The scan loop's failure behaviour (`scanAndQueueClasses`, `server.js`
lines 263-396)

The whole user/subject double loop sits inside a single
`try { ... } catch (error) { console.error(...) }` (lines 271-395): an
exception thrown by any per-unit read (for example the
`attendanceRef.get()` of one subject) propagates out of both loops to that
`catch`.  The nested iteration is flattened here into its evaluation order:
one `ScanUnit` per (user, subject) visit, whose awaits are collapsed into a
single `Except`-valued read. -/

structure ScanUnit where
  userId : String
  subjectId : String
  /-- `Except.error` models a rejected/thrown per-unit read -/
  readResult : Except Unit Unit

/-- The (user, subject) pairs whose unit logic actually runs during one scan
pass: an error aborts the loop (its exception reaches the outer `catch`,
which only logs — the process survives, but the remaining units are not
visited this cycle). -/
def scanAndQueueUnits : List ScanUnit → List (String × String)
  | [] => []
  | u :: rest =>
    match u.readResult with
    | .ok _ => (u.userId, u.subjectId) :: scanAndQueueUnits rest
    | .error _ => []

/-- Whether a unit's collapsed read succeeded. -/
def ScanUnit.readOk (u : ScanUnit) : Bool :=
  match u.readResult with
  | .ok _ => true
  | .error _ => false

/-! ## Geofence evaluator (`checkAndMarkAttendance`, `server.js`
lines 104-199) -/

/-- The newest document of the `locations` collection for a
(user, subject) pair.  The server stores `latitude`/`longitude` as the
numbers received from the device and a server `timestamp`
(milliseconds; `none` when the field is missing, in which case the
freshness test `locationTimestamp && locationTimestamp < tenMinutesAgo`
is skipped). -/
structure LocSample where
  latitude : ℝ
  longitude : ℝ
  timestamp : Option Int

/-- `subjectData.location` as read by the evaluator: each field is absent
when the class location is not configured. -/
structure SubjectLoc where
  latitude : Option ℝ
  longitude : Option ℝ
  accuracy : Option ℝ

/-- JS `x || d` for an optional number `x`: `undefined` and `0` are falsy
(`subjectData.location?.accuracy || 50`, `server.js` line 168). -/
noncomputable def jsOrNum (x : Option ℝ) (d : ℝ) : ℝ :=
  match x with
  | some v => if v = 0 then d else v
  | none => d

/-- `locationTimestamp && locationTimestamp < tenMinutesAgo`
(`server.js` lines 150-151), with `tenMinutesAgo = now - 10 * 60 * 1000`. -/
def staleAt (now : Int) (ts : Option Int) : Bool :=
  match ts with
  | some t => t < now - 10 * 60 * 1000
  | none => false

/-- How one run of `checkAndMarkAttendance` ended. -/
inductive MarkResult where
  /-- the day is already in `present` or `absent` (line 118) -/
  | alreadyMarked
  /-- `locationsSnapshot.empty`: marked absent (lines 137-144) -/
  | absentNoLocation
  /-- sample older than ten minutes: marked absent (lines 151-158) -/
  | absentStale
  /-- `!classLat || !classLon`: returned without writing (lines 172-175) -/
  | cannotEvaluate
  /-- `distance <= accuracyThreshold`: marked present (lines 182-187) -/
  | presentInRange (distance : ℝ)
  /-- marked absent, too far (lines 188-194) -/
  | absentTooFar (distance : ℝ)

/-- `server.js` lines 104-199.  `now` is the evaluation instant in
milliseconds, `sample` the newest location document for the
(user, subject) pair (`none` when `locationsSnapshot.empty`), `subj` the
subject's `location` data, `day` today's day-of-month, `att` the stored
attendance record.  Returns the written record and the outcome. -/
noncomputable def checkAndMarkAttendance (now : Int) (sample : Option LocSample)
    (subj : SubjectLoc) (day : Int) (att : Attendance) :
    Attendance × MarkResult :=
  if day ∈ att.present ∨ day ∈ att.absent then
    (att, .alreadyMarked)
  else
    match sample with
    | none => ({ att with absent := arrayUnion att.absent day }, .absentNoLocation)
    | some s =>
      if staleAt now s.timestamp then
        ({ att with absent := arrayUnion att.absent day }, .absentStale)
      else
        match subj.latitude, subj.longitude with
        | some classLat, some classLon =>
          if classLat = 0 ∨ classLon = 0 then
            (att, .cannotEvaluate)
          else
            -- `accuracyThreshold` is `subjectData.location?.accuracy || 50`
            if calculateDistance s.latitude s.longitude classLat classLon ≤
                jsOrNum subj.accuracy 50 then
              ({ att with present := arrayUnion att.present day },
                .presentInRange
                  (calculateDistance s.latitude s.longitude classLat classLon))
            else
              ({ att with absent := arrayUnion att.absent day },
                .absentTooFar
                  (calculateDistance s.latitude s.longitude classLat classLon))
        | _, _ => (att, .cannotEvaluate)

/-! ## `POST /api/location` (`server.js` lines 399-546) -/

/-- The request body fields the handler destructures (`attendanceDocId` is
read but never used). -/
structure LocationRequest where
  userId : Option String
  subjectId : Option String
  latitude : Option ℝ
  longitude : Option ℝ

/-- Which reply the handler sent. -/
inductive ApiOutcome where
  /-- HTTP 400 `Missing required fields` (lines 409-412) -/
  | missingFields
  /-- `Location stored but subject not found` (lines 433-436) -/
  | subjectNotFound
  /-- `Location stored but class location not set` (lines 448-451) -/
  | classLocationNotSet
  /-- `Attendance already marked` (lines 487-495) -/
  | alreadyMarked
  /-- `Marked present` (lines 500-518) -/
  | markedPresent (distance : ℝ)
  /-- `Marked absent - too far` (lines 519-538) -/
  | markedAbsent (distance : ℝ)

/-- The externally visible effects of one `POST /api/location` call. -/
structure ApiLocationResult where
  status : Nat
  /-- whether a document was added to the `locations` collection (line 415) -/
  locationStored : Bool
  /-- the attendance record after the call -/
  attendance : Attendance
  outcome : ApiOutcome

/-- `server.js` lines 399-546.  `subj` is the subject document looked up in
STEP 2 (`none` when `!subjectDoc.exists`), `att` the attendance record read
in STEP 5, `day` today's day-of-month.  The validation
`if (!userId || !latitude || !longitude || !subjectId)` treats `undefined`,
an empty string and the number `0` as missing. -/
noncomputable def postApiLocation (req : LocationRequest)
    (subj : Option SubjectLoc) (att : Attendance) (day : Int) :
    ApiLocationResult :=
  match req.userId, req.latitude, req.longitude, req.subjectId with
  | some u, some la, some lo, some sid =>
    if u = "" ∨ la = 0 ∨ lo = 0 ∨ sid = "" then
      ⟨400, false, att, .missingFields⟩
    else
      match subj with
      | none => ⟨200, true, att, .subjectNotFound⟩
      | some sd =>
        match sd.latitude, sd.longitude with
        | some classLat, some classLon =>
          if classLat = 0 ∨ classLon = 0 then
            ⟨200, true, att, .classLocationNotSet⟩
          else
            -- distance against `subjectData.location?.accuracy || 50`
            if day ∈ att.present ∨ day ∈ att.absent then
              ⟨200, true, att, .alreadyMarked⟩
            else if calculateDistance la lo classLat classLon ≤
                jsOrNum sd.accuracy 50 then
              ⟨200, true, { att with present := arrayUnion att.present day },
                .markedPresent (calculateDistance la lo classLat classLon)⟩
            else
              ⟨200, true, { att with absent := arrayUnion att.absent day },
                .markedAbsent (calculateDistance la lo classLat classLon)⟩
        | _, _ => ⟨200, true, att, .classLocationNotSet⟩
  | _, _, _, _ => ⟨400, false, att, .missingFields⟩

/-! ## Correction endpoints (`src/unnamed/part_002` lines 764-849) -/

/-- `POST /remove-present` (part_002 lines 764-790): the attendance update
it performs once validation passes. -/
def removePresentUpdate (att : Attendance) (day : Int) : Attendance :=
  { att with present := arrayRemove att.present day }

/-- `POST /proxy-done` (part_002 lines 793-820): removes the day from
`absent` and unions it into `present` in one update. -/
def proxyDoneUpdate (att : Attendance) (day : Int) : Attendance :=
  ⟨arrayUnion att.present day, arrayRemove att.absent day⟩

/-- `POST /class-cancelled` (part_002 lines 823-849): removes the day from
`absent`. -/
def classCancelledUpdate (att : Attendance) (day : Int) : Attendance :=
  { att with absent := arrayRemove att.absent day }

/-! ## The engine's operations on one attendance record -/

/-- Every code path of the engine that touches an `AttendanceRecord`:
the scheduler's read-only pre-check (`server.js` lines 325-332), a geofence
evaluator commit, the `/api/location` commit, and the three correction
endpoints. -/
inductive AttOp where
  | evalOp (now : Int) (sample : Option LocSample) (subj : SubjectLoc) (day : Int)
  | apiOp (req : LocationRequest) (subj : Option SubjectLoc) (day : Int)
  | removePresentEndpoint (day : Int)
  | proxyDoneEndpoint (day : Int)
  | classCancelledEndpoint (day : Int)
  /-- the scan's attendance pre-check only reads the record -/
  | scanPreCheckOp (day : Int)

/-- Effect of one operation on the stored record. -/
noncomputable def applyOp (op : AttOp) (att : Attendance) : Attendance :=
  match op with
  | .evalOp now sample subj day => (checkAndMarkAttendance now sample subj day att).1
  | .apiOp req subj day => (postApiLocation req subj att day).attendance
  | .removePresentEndpoint day => removePresentUpdate att day
  | .proxyDoneEndpoint day => proxyDoneUpdate att day
  | .classCancelledEndpoint day => classCancelledUpdate att day
  | .scanPreCheckOp _ => att

/-- A sequence of operations applied in order. -/
noncomputable def applyOps (ops : List AttOp) (att : Attendance) : Attendance :=
  match ops with
  | [] => att
  | op :: rest => applyOps rest (applyOp op att)

/-! ## Helper lemmas -/

theorem mem_arrayUnion {xs : List Int} {a d : Int} :
    d ∈ arrayUnion xs a ↔ d ∈ xs ∨ d = a := by
  unfold arrayUnion
  by_cases h : a ∈ xs
  · simp only [if_pos h]
    constructor
    · exact Or.inl
    · rintro (hd | rfl)
      · exact hd
      · exact h
  · simp [if_neg h]

theorem self_mem_arrayUnion (xs : List Int) (a : Int) : a ∈ arrayUnion xs a :=
  mem_arrayUnion.mpr (Or.inr rfl)

theorem mem_arrayRemove {xs : List Int} {a d : Int} :
    d ∈ arrayRemove xs a ↔ d ∈ xs ∧ d ≠ a := by
  unfold arrayRemove
  simp [List.mem_filter]

theorem arrayUnion_of_not_mem {xs : List Int} {a : Int} (h : a ∉ xs) :
    arrayUnion xs a = xs ++ [a] := by
  unfold arrayUnion
  simp [if_neg h]

theorem atan2_zero_one : atan2 0 1 = 0 := by
  unfold atan2
  rw [if_pos one_pos]
  simp [Real.arctan_zero]

/-- A sample taken exactly at the class coordinates is at distance `0`. -/
theorem calculateDistance_self (la lo : ℝ) : calculateDistance la lo la lo = 0 := by
  unfold calculateDistance
  simp only [sub_self, zero_mul, zero_div, Real.sin_zero, mul_zero, zero_add,
    add_zero, Real.sqrt_zero, sub_zero, Real.sqrt_one, atan2_zero_one]

theorem exclusiveDays_markPresent {att : Attendance} {day : Int}
    (hex : ExclusiveDays att) (ha : day ∉ att.absent) :
    ExclusiveDays { att with present := arrayUnion att.present day } := by
  intro d hd
  rcases mem_arrayUnion.mp hd with h | rfl
  · exact hex d h
  · exact ha

theorem exclusiveDays_markAbsent {att : Attendance} {day : Int}
    (hex : ExclusiveDays att) (hp : day ∉ att.present) :
    ExclusiveDays { att with absent := arrayUnion att.absent day } := by
  intro d hd hcon
  rcases mem_arrayUnion.mp hcon with h | rfl
  · exact hex d hd h
  · exact hp hd

theorem exclusiveDays_removePresentUpdate {att : Attendance} (day : Int)
    (hex : ExclusiveDays att) : ExclusiveDays (removePresentUpdate att day) := by
  intro d hd
  exact hex d (mem_arrayRemove.mp hd).1

theorem exclusiveDays_classCancelledUpdate {att : Attendance} (day : Int)
    (hex : ExclusiveDays att) : ExclusiveDays (classCancelledUpdate att day) := by
  intro d hd hcon
  exact hex d hd (mem_arrayRemove.mp hcon).1

theorem exclusiveDays_proxyDoneUpdate {att : Attendance} (day : Int)
    (hex : ExclusiveDays att) : ExclusiveDays (proxyDoneUpdate att day) := by
  intro d hd hcon
  rcases mem_arrayUnion.mp hd with h | rfl
  · exact hex d h (mem_arrayRemove.mp hcon).1
  · exact (mem_arrayRemove.mp hcon).2 rfl

/-- When the day is already recorded, the evaluator does nothing
(`server.js` lines 118-121). -/
theorem checkAndMarkAttendance_already (now : Int) (sample : Option LocSample)
    (subj : SubjectLoc) (day : Int) (att : Attendance)
    (h : day ∈ att.present ∨ day ∈ att.absent) :
    checkAndMarkAttendance now sample subj day att = (att, .alreadyMarked) := by
  unfold checkAndMarkAttendance
  rw [if_pos h]

/-- Every run of the evaluator either leaves the record untouched or leaves
the day recorded in one of the two sets. -/
theorem checkAndMarkAttendance_self_or_marked (now : Int)
    (sample : Option LocSample) (subj : SubjectLoc) (day : Int)
    (att : Attendance) :
    (checkAndMarkAttendance now sample subj day att).1 = att ∨
      day ∈ (checkAndMarkAttendance now sample subj day att).1.present ∨
      day ∈ (checkAndMarkAttendance now sample subj day att).1.absent := by
  unfold checkAndMarkAttendance
  split
  · exact Or.inl rfl
  · split
    · exact Or.inr (Or.inr (self_mem_arrayUnion _ _))
    · split
      · exact Or.inr (Or.inr (self_mem_arrayUnion _ _))
      · split
        · split
          · exact Or.inl rfl
          · split
            · exact Or.inr (Or.inl (self_mem_arrayUnion _ _))
            · exact Or.inr (Or.inr (self_mem_arrayUnion _ _))
        · exact Or.inl rfl

/-- The evaluator preserves the exclusivity invariant. -/
theorem checkAndMarkAttendance_exclusive (now : Int) (sample : Option LocSample)
    (subj : SubjectLoc) (day : Int) (att : Attendance)
    (hex : ExclusiveDays att) :
    ExclusiveDays (checkAndMarkAttendance now sample subj day att).1 := by
  unfold checkAndMarkAttendance
  split
  · exact hex
  next hguard =>
    push_neg at hguard
    split
    · exact exclusiveDays_markAbsent hex hguard.1
    · split
      · exact exclusiveDays_markAbsent hex hguard.1
      · split
        · split
          · exact hex
          · split
            · exact exclusiveDays_markPresent hex hguard.2
            · exact exclusiveDays_markAbsent hex hguard.1
        · exact hex

/-- The `/api/location` handler preserves the exclusivity invariant. -/
theorem postApiLocation_exclusive (req : LocationRequest)
    (subj : Option SubjectLoc) (att : Attendance) (day : Int)
    (hex : ExclusiveDays att) :
    ExclusiveDays (postApiLocation req subj att day).attendance := by
  obtain ⟨uid, sid, la, lo⟩ := req
  cases uid with
  | none => exact hex
  | some u =>
    cases la with
    | none => exact hex
    | some lav =>
      cases lo with
      | none => exact hex
      | some lov =>
        cases sid with
        | none => exact hex
        | some sidv =>
          unfold postApiLocation
          dsimp only
          by_cases hval : u = "" ∨ lav = 0 ∨ lov = 0 ∨ sidv = ""
          · rw [if_pos hval]
            exact hex
          · rw [if_neg hval]
            cases subj with
            | none => exact hex
            | some sd =>
              obtain ⟨sla, slo, sacc⟩ := sd
              cases sla with
              | none => exact hex
              | some sclat =>
                cases slo with
                | none => exact hex
                | some sclon =>
                  dsimp only
                  by_cases hz : sclat = 0 ∨ sclon = 0
                  · rw [if_pos hz]
                    exact hex
                  · rw [if_neg hz]
                    by_cases hg : day ∈ att.present ∨ day ∈ att.absent
                    · rw [if_pos hg]
                      exact hex
                    · rw [if_neg hg]
                      push_neg at hg
                      by_cases hd : calculateDistance lav lov sclat sclon ≤
                          jsOrNum sacc 50
                      · rw [if_pos hd]
                        exact exclusiveDays_markPresent hex hg.2
                      · rw [if_neg hd]
                        exact exclusiveDays_markAbsent hex hg.1

/-- Every single engine operation preserves the exclusivity invariant. -/
theorem applyOp_exclusive (op : AttOp) (att : Attendance)
    (hex : ExclusiveDays att) : ExclusiveDays (applyOp op att) := by
  cases op with
  | evalOp now sample subj day =>
    exact checkAndMarkAttendance_exclusive now sample subj day att hex
  | apiOp req subj day => exact postApiLocation_exclusive req subj att day hex
  | removePresentEndpoint day => exact exclusiveDays_removePresentUpdate day hex
  | proxyDoneEndpoint day => exact exclusiveDays_proxyDoneUpdate day hex
  | classCancelledEndpoint day => exact exclusiveDays_classCancelledUpdate day hex
  | scanPreCheckOp _ => exact hex

/-! ## Claim theorems -/

/-- C1: for every AttendanceRecord and every day-of-month, after any sequence
of the engine's attendance operations (scheduler pre-check, geofence-evaluator
commit in `checkAndMarkAttendance`, the `/api/location` commit, and the
correction endpoints `/remove-present`, `/proxy-done`, `/class-cancelled`),
the day appears in at most one of the record's `present` and `absent` sets. -/
theorem C1_exclusivity_invariant (ops : List AttOp) (att : Attendance)
    (hex : ExclusiveDays att) : ExclusiveDays (applyOps ops att) := by
  induction ops generalizing att with
  | nil => exact hex
  | cons op rest ih =>
    exact ih (applyOp op att) (applyOp_exclusive op att hex)

theorem C1_exclusivity_invariant_witness :
    ExclusiveDays ⟨[], []⟩ ∧
    ExclusiveDays (applyOps
      [AttOp.evalOp 0 none ⟨none, none, none⟩ 5,
       AttOp.proxyDoneEndpoint 5,
       AttOp.removePresentEndpoint 3,
       AttOp.scanPreCheckOp 5] ⟨[], []⟩) := by
  constructor
  · intro d hd
    simp at hd
  · exact C1_exclusivity_invariant _ _ (by intro d hd; simp at hd)

/-- C2: once the Geofence Evaluator has committed a decision for a day,
invoking it again with the same inputs leaves the AttendanceRecord
unchanged — no duplicate day entry is added to either set and the day is
never moved between `present` and `absent`. -/
theorem C2_idempotent_commit (now : Int) (sample : Option LocSample)
    (subj : SubjectLoc) (day : Int) (att : Attendance) :
    (checkAndMarkAttendance now sample subj day
        (checkAndMarkAttendance now sample subj day att).1).1 =
      (checkAndMarkAttendance now sample subj day att).1 := by
  rcases checkAndMarkAttendance_self_or_marked now sample subj day att with h | h
  · rw [h]
    exact h
  · rw [checkAndMarkAttendance_already now sample subj day _ h]

/-- C4: if no location sample exists for the (user, subject) pair, or the
only available sample is older than the ten-minute grace window, the
evaluator commits absent, adding today's day-of-month to the `absent` set
exactly once (and touching nothing else). -/
theorem C4_no_timely_location (now : Int) (sample : Option LocSample)
    (subj : SubjectLoc) (day : Int) (att : Attendance)
    (hp : day ∉ att.present) (ha : day ∉ att.absent)
    (hcase : sample = none ∨ ∃ s, sample = some s ∧ staleAt now s.timestamp = true) :
    (checkAndMarkAttendance now sample subj day att).1.absent =
      att.absent ++ [day] ∧
    (checkAndMarkAttendance now sample subj day att).1.present = att.present ∧
    ((checkAndMarkAttendance now sample subj day att).1.absent.count day = 1) ∧
    ((checkAndMarkAttendance now sample subj day att).2 =
        MarkResult.absentNoLocation ∨
      (checkAndMarkAttendance now sample subj day att).2 =
        MarkResult.absentStale) := by
  have hguard : ¬ (day ∈ att.present ∨ day ∈ att.absent) := by
    simp [hp, ha]
  have hmain : (checkAndMarkAttendance now sample subj day att).1 =
      { att with absent := arrayUnion att.absent day } ∧
      ((checkAndMarkAttendance now sample subj day att).2 =
          MarkResult.absentNoLocation ∨
        (checkAndMarkAttendance now sample subj day att).2 =
          MarkResult.absentStale) := by
    rcases hcase with rfl | ⟨s, rfl, hstale⟩
    · unfold checkAndMarkAttendance
      rw [if_neg hguard]
      exact ⟨rfl, Or.inl rfl⟩
    · unfold checkAndMarkAttendance
      rw [if_neg hguard]
      dsimp only
      rw [if_pos hstale]
      exact ⟨rfl, Or.inr rfl⟩
  refine ⟨?_, ?_, ?_, hmain.2⟩
  · rw [hmain.1, arrayUnion_of_not_mem ha]
  · rw [hmain.1]
  · rw [hmain.1, arrayUnion_of_not_mem ha]
    simp [List.count_append, List.count_eq_zero_of_not_mem ha]

theorem C4_no_timely_location_witness :
    ((5 : Int) ∉ ([] : List Int)) ∧
    (checkAndMarkAttendance 0 none ⟨none, none, none⟩ 5 ⟨[], []⟩).1.absent =
      [(5 : Int)] ∧
    (checkAndMarkAttendance 0 none ⟨none, none, none⟩ 5 ⟨[], []⟩).1.absent.count
      5 = 1 := by
  have h := C4_no_timely_location 0 none ⟨none, none, none⟩ 5 ⟨[], []⟩
    (by simp) (by simp) (Or.inl rfl)
  refine ⟨by simp, ?_, h.2.2.1⟩
  have h1 := h.1
  simpa using h1

/-- C5 counterexample: a subject with no registered class location
(`location.latitude`/`longitude` unset) and no available location sample:
the claim says the record is left unchanged regardless of sample
availability, but `checkAndMarkAttendance` reaches the no-location absent
write (lines 137-144) before the class-location check (line 172) and marks
day 5 absent. -/
theorem C5_counterexample :
    (checkAndMarkAttendance 0 none ⟨none, none, none⟩ 5 ⟨[], []⟩).1.absent =
      [(5 : Int)] ∧
    (checkAndMarkAttendance 0 none ⟨none, none, none⟩ 5 ⟨[], []⟩).1 ≠
      (⟨[], []⟩ : Attendance) := by
  have h : (checkAndMarkAttendance 0 none ⟨none, none, none⟩ 5 ⟨[], []⟩).1.absent =
      [(5 : Int)] := by
    unfold checkAndMarkAttendance
    rw [if_neg (by simp)]
    dsimp only
    rfl
  refine ⟨h, fun hcon => ?_⟩
  rw [hcon] at h
  simp at h

/-- C5 amended: when the Subject has no registered class location (latitude
or longitude unset or zero), the evaluator reports "cannot evaluate" and
writes no decision *provided a timely location sample is available*; when no
sample is available (or the only one is stale) the no-location absent path
runs before the class-location check, so the day is marked absent even
though the class is mis-configured. -/
theorem C5_cannot_evaluate_amended (now : Int) (sample : Option LocSample)
    (la lo acc : Option ℝ) (day : Int) (att : Attendance)
    (hp : day ∉ att.present) (ha : day ∉ att.absent)
    (hmis : la = none ∨ lo = none ∨ la = some 0 ∨ lo = some 0) :
    (∀ s : LocSample, sample = some s → staleAt now s.timestamp = false →
      checkAndMarkAttendance now sample ⟨la, lo, acc⟩ day att =
        (att, MarkResult.cannotEvaluate)) ∧
    (sample = none →
      (checkAndMarkAttendance now sample ⟨la, lo, acc⟩ day att).1.absent =
        arrayUnion att.absent day ∧
      (checkAndMarkAttendance now sample ⟨la, lo, acc⟩ day att).2 =
        MarkResult.absentNoLocation) := by
  have hguard : ¬ (day ∈ att.present ∨ day ∈ att.absent) := by
    simp [hp, ha]
  constructor
  · rintro s rfl hfresh
    unfold checkAndMarkAttendance
    rw [if_neg hguard]
    rcases hmis with rfl | rfl | rfl | rfl
    · cases lo <;> simp [hfresh]
    · cases la <;> simp [hfresh]
    · cases lo <;> simp [hfresh]
    · cases la <;> simp [hfresh]
  · rintro rfl
    unfold checkAndMarkAttendance
    rw [if_neg hguard]
    exact ⟨rfl, rfl⟩

theorem C5_cannot_evaluate_amended_witness :
    ((5 : Int) ∉ ([] : List Int)) ∧
    checkAndMarkAttendance 0 (some ⟨1, 2, none⟩) ⟨none, some 3, none⟩ 5 ⟨[], []⟩ =
      ((⟨[], []⟩ : Attendance), MarkResult.cannotEvaluate) := by
  refine ⟨by simp, ?_⟩
  exact (C5_cannot_evaluate_amended 0 (some ⟨1, 2, none⟩) none (some 3) none 5
    ⟨[], []⟩ (by simp) (by simp) (Or.inl rfl)).1 ⟨1, 2, none⟩ rfl rfl

/-- C3: for a timely location sample and a registered class location, the
evaluator marks the day present exactly when the haversine distance
(`calculateDistance`, Earth radius 6,371,000 m) is `≤` the configured radius
(inclusive boundary), marks it absent otherwise, and in particular a sample
at the exact class coordinates (distance 0) is marked present. -/
theorem C3_geofence_decision (now : Int) (s : LocSample) (subj : SubjectLoc)
    (day : Int) (att : Attendance) (classLat classLon : ℝ)
    (hp : day ∉ att.present) (ha : day ∉ att.absent)
    (hfresh : staleAt now s.timestamp = false)
    (hla : subj.latitude = some classLat) (hlo : subj.longitude = some classLon)
    (hla0 : classLat ≠ 0) (hlo0 : classLon ≠ 0) :
    ((checkAndMarkAttendance now (some s) subj day att).2 =
        MarkResult.presentInRange
          (calculateDistance s.latitude s.longitude classLat classLon) ↔
      calculateDistance s.latitude s.longitude classLat classLon ≤
        jsOrNum subj.accuracy 50) ∧
    (calculateDistance s.latitude s.longitude classLat classLon ≤
        jsOrNum subj.accuracy 50 →
      (checkAndMarkAttendance now (some s) subj day att).1 =
        { att with present := arrayUnion att.present day }) ∧
    (¬ calculateDistance s.latitude s.longitude classLat classLon ≤
        jsOrNum subj.accuracy 50 →
      (checkAndMarkAttendance now (some s) subj day att).1 =
        { att with absent := arrayUnion att.absent day } ∧
      (checkAndMarkAttendance now (some s) subj day att).2 =
        MarkResult.absentTooFar
          (calculateDistance s.latitude s.longitude classLat classLon)) ∧
    (s.latitude = classLat → s.longitude = classLon →
      0 ≤ jsOrNum subj.accuracy 50 →
      (checkAndMarkAttendance now (some s) subj day att).2 =
        MarkResult.presentInRange 0) := by
  have hguard : ¬ (day ∈ att.present ∨ day ∈ att.absent) := by
    simp [hp, ha]
  have heval : checkAndMarkAttendance now (some s) subj day att =
      (if calculateDistance s.latitude s.longitude classLat classLon ≤
          jsOrNum subj.accuracy 50 then
        ({ att with present := arrayUnion att.present day },
          MarkResult.presentInRange
            (calculateDistance s.latitude s.longitude classLat classLon))
      else
        ({ att with absent := arrayUnion att.absent day },
          MarkResult.absentTooFar
            (calculateDistance s.latitude s.longitude classLat classLon))) := by
    unfold checkAndMarkAttendance
    rw [if_neg hguard]
    simp [hfresh, hla, hlo, hla0, hlo0]
  by_cases hd : calculateDistance s.latitude s.longitude classLat classLon ≤
      jsOrNum subj.accuracy 50
  · rw [heval, if_pos hd]
    refine ⟨by simp [hd], fun _ => rfl, fun hcon => absurd hd hcon, ?_⟩
    intro h1 h2 _
    simp only [h1, h2, calculateDistance_self]
  · rw [heval, if_neg hd]
    refine ⟨by simp [hd], fun hcon => absurd hcon hd, fun _ => ⟨rfl, rfl⟩, ?_⟩
    intro h1 h2 h0
    rw [h1, h2, calculateDistance_self] at hd
    exact absurd h0 hd

theorem C3_geofence_decision_witness :
    ((5 : Int) ∉ ([] : List Int)) ∧ ((10 : ℝ) ≠ 0) ∧
    (checkAndMarkAttendance 0 (some ⟨10, 20, none⟩) ⟨some 10, some 20, none⟩ 5
        ⟨[], []⟩).2 = MarkResult.presentInRange 0 := by
  refine ⟨by simp, by norm_num, ?_⟩
  exact (C3_geofence_decision 0 ⟨10, 20, none⟩ ⟨some 10, some 20, none⟩ 5
    ⟨[], []⟩ 10 20 (by simp) (by simp) rfl rfl rfl (by norm_num)
    (by norm_num)).2.2.2 rfl rfl (by norm_num [jsOrNum])

/-- C6 counterexample: the one-element list entry
`[{"start":"09:00","end":"10:00"}]` yields the single interval
`[540, 600]`, but the single-object entry `{"start":"09:00","end":"10:00"}`
does not — `server.js`'s non-array branch calls `daySchedule.split('-')`,
which a plain object does not support (TypeError), so the two accepted
shapes are not treated identically. -/
theorem C6_counterexample :
    normalizeDayEntry (DayEntry.arr [(some "09:00", some "10:00")]) =
      Except.ok [(some 540, some 600)] ∧
    normalizeDayEntry (DayEntry.objEntry (some "09:00") (some "10:00")) ≠
      Except.ok [(some 540, some 600)] := by
  constructor
  · rfl
  · intro hcon
    exact Except.noConfusion hcon

/-- C6 amended: the two day-entry shapes `server.js`'s scan accepts are the
list shape and the dash-separated string shape:
`[{"start":"09:00","end":"10:00"}]` and `"09:00-10:00"` both yield the
identical single interval `[540, 600]` (so the scan queues the same trigger
for either); a bare single-object entry is not accepted — the non-array
branch raises a TypeError on it, caught by the scan's outer `catch`. -/
theorem C6_normalization_amended :
    normalizeDayEntry (DayEntry.arr [(some "09:00", some "10:00")]) =
      Except.ok [(some 540, some 600)] ∧
    normalizeDayEntry (DayEntry.strEntry "09:00-10:00") =
      Except.ok [(some 540, some 600)] ∧
    normalizeDayEntry (DayEntry.objEntry (some "09:00") (some "10:00")) =
      Except.error () := by
  exact ⟨rfl, rfl, rfl⟩

/-- C7: for a class interval `[start, end]` (with `start ≤ end`, both
parsed) and current minute-of-day `now`, the trigger minute is the midpoint
`⌊(start + end) / 2⌋`: if the midpoint has not passed, the request is queued
with delay `midpoint - now` (so it fires at the midpoint); if the midpoint
has passed but `now ≤ end`, it is queued with delay `0` (fires immediately);
if `now > end`, the interval is skipped and nothing is queued. -/
theorem C7_midpoint_trigger (s e now : Nat) (hse : s ≤ e) :
    (now ≤ (s + e) / 2 →
      queueLocationRequest (some s) (some e) now false =
        QueueAction.queued (some ((((s + e) / 2 : Nat) : Int) - (now : Int)))) ∧
    ((s + e) / 2 < now → now ≤ e →
      queueLocationRequest (some s) (some e) now false =
        QueueAction.queued (some 0)) ∧
    (e < now →
      queueLocationRequest (some s) (some e) now false =
        QueueAction.skipEnded) := by
  refine ⟨?_, ?_, ?_⟩
  · intro h
    unfold queueLocationRequest jsMidpoint jsDelay jsNegative
    dsimp only
    split
    next hcond =>
      exfalso
      simp only [decide_eq_true_eq] at hcond
      omega
    next => rfl
  · intro h1 h2
    unfold queueLocationRequest jsMidpoint jsDelay jsNegative
    dsimp only
    split
    next =>
      split
      next => rfl
      next hc =>
        exfalso
        simp only [decide_eq_true_eq] at hc
        exact hc h2
    next hcond =>
      exfalso
      simp only [decide_eq_true_eq] at hcond
      omega
  · intro h
    unfold queueLocationRequest jsMidpoint jsDelay jsNegative
    dsimp only
    split
    next =>
      split
      next hc =>
        exfalso
        simp only [decide_eq_true_eq] at hc
        omega
      next => rfl
    next hcond =>
      exfalso
      simp only [decide_eq_true_eq] at hcond
      omega

theorem C7_midpoint_trigger_witness :
    (540 ≤ 600) ∧
    queueLocationRequest (some 540) (some 600) 500 false =
      QueueAction.queued (some 70) := by
  refine ⟨by decide, ?_⟩
  have h := (C7_midpoint_trigger 540 600 500 (by decide)).1 (by decide)
  norm_num at h
  exact h

/-- C8 counterexample: a unit whose logic would run when scanned alone
(`("u2","s2")` with a successful read) is *not* processed when it follows a
unit whose read fails — the failing unit's exception reaches the scan's
single outer `catch` and ends the whole pass, so the scan does not "still
process every remaining user and subject". -/
theorem C8_counterexample :
    ("u2", "s2") ∈ scanAndQueueUnits [⟨"u2", "s2", Except.ok ()⟩] ∧
    ("u2", "s2") ∉ scanAndQueueUnits
      [⟨"u1", "s1", Except.error ()⟩, ⟨"u2", "s2", Except.ok ()⟩] := by
  constructor
  · simp [scanAndQueueUnits]
  · simp [scanAndQueueUnits]

/-- C8 amended: a failure while reading one (User, Subject) unit does not
crash the process (the scan's single `try/catch` absorbs it), but it aborts
the remainder of that scan cycle rather than skipping only the failing
unit: exactly the units strictly before the first failure are processed. -/
theorem C8_scan_abort_amended (units : List ScanUnit) :
    scanAndQueueUnits units =
      (units.takeWhile (fun u => u.readOk)).map
        (fun u => (u.userId, u.subjectId)) := by
  induction units with
  | nil => rfl
  | cons u rest ih =>
    cases hr : u.readResult with
    | ok v =>
      have hok : u.readOk = true := by
        unfold ScanUnit.readOk
        rw [hr]
      unfold scanAndQueueUnits
      rw [hr, List.takeWhile_cons, hok]
      simp [ih]
    | error v =>
      have hok : u.readOk = false := by
        unfold ScanUnit.readOk
        rw [hr]
      unfold scanAndQueueUnits
      rw [hr, List.takeWhile_cons, hok]
      simp

/-- C9 counterexample: `"abc"` is not parseable as `HH:MM`
(`timeToMinutes` gives `NaN`), yet the scan does *not* skip the interval:
the `endMinutes < currentMinutes` check is false (`NaN` comparisons are
false), the attendance pre-check passes, and `queueLocationRequest` queues
a trigger whose `delayMinutes` is `NaN` — `NaN < 0` is also false, so the
timeout is registered (and `setTimeout` coerces the `NaN` delay to `0`,
firing immediately). -/
theorem C9_counterexample :
    timeToMinutes "abc" = none ∧
    scanArrayItem (some "abc") (some "10:00") 500 false false =
      ScanItemAction.queueAction (QueueAction.queued none) := by
  exact ⟨rfl, rfl⟩

/-- C9 amended: a malformed time string never makes the scan throw
(`timeToMinutes` totalises to `NaN`), but the interval is not skipped: the
non-numeric minutes propagate, the finished-class check fails, and a trigger
is queued with `NaN` delay, which `setTimeout` treats as `0` (immediate
fire). -/
theorem C9_malformed_time_amended (s e : String) (currentMinutes : Nat)
    (hs : ¬ (s = "" ∨ e = "")) (hbad : timeToMinutes s = none)
    (hnotpast : jsLtNat (timeToMinutes e) currentMinutes = false) :
    scanArrayItem (some s) (some e) currentMinutes false false =
      ScanItemAction.queueAction (QueueAction.queued none) ∧
    effectiveDelayMs none = 0 := by
  refine ⟨?_, rfl⟩
  unfold scanArrayItem
  dsimp only
  rw [if_neg hs, hnotpast, hbad]
  rfl

theorem C9_malformed_time_amended_witness :
    timeToMinutes "abc" = none ∧
    jsLtNat (timeToMinutes "10:00") 500 = false ∧
    scanArrayItem (some "abc") (some "10:00") 500 false false =
      ScanItemAction.queueAction (QueueAction.queued none) ∧
    effectiveDelayMs none = 0 := by
  have h := C9_malformed_time_amended "abc" "10:00" 500 (by decide) rfl rfl
  exact ⟨rfl, rfl, h.1, h.2⟩

/-- C10: a `POST /api/location` request missing any of `userId`,
`subjectId`, `latitude` or `longitude` — or carrying `latitude`/`longitude`
equal to `0`, since the handler's check `!userId || !latitude || ...` uses
JS falsiness — is answered with HTTP 400 "Missing required fields" and
performs no write: no location document is stored and the attendance record
is untouched. -/
theorem C10_api_validation (req : LocationRequest) (subj : Option SubjectLoc)
    (att : Attendance) (day : Int)
    (h : req.userId = none ∨ req.userId = some "" ∨
      req.subjectId = none ∨ req.subjectId = some "" ∨
      req.latitude = none ∨ req.latitude = some 0 ∨
      req.longitude = none ∨ req.longitude = some 0) :
    (postApiLocation req subj att day).status = 400 ∧
    (postApiLocation req subj att day).locationStored = false ∧
    (postApiLocation req subj att day).attendance = att ∧
    (postApiLocation req subj att day).outcome = ApiOutcome.missingFields := by
  obtain ⟨uid, sid, la, lo⟩ := req
  cases uid with
  | none => exact ⟨rfl, rfl, rfl, rfl⟩
  | some u =>
    cases la with
    | none => exact ⟨rfl, rfl, rfl, rfl⟩
    | some lav =>
      cases lo with
      | none => exact ⟨rfl, rfl, rfl, rfl⟩
      | some lov =>
        cases sid with
        | none => exact ⟨rfl, rfl, rfl, rfl⟩
        | some sidv =>
          have hcond : u = "" ∨ lav = 0 ∨ lov = 0 ∨ sidv = "" := by
            rcases h with h | h | h | h | h | h | h | h <;> simp_all
          unfold postApiLocation
          dsimp only
          rw [if_pos hcond]
          exact ⟨rfl, rfl, rfl, rfl⟩

theorem C10_api_validation_witness :
    ((⟨some "u7", some "math", some 0, some 77.2⟩ : LocationRequest).latitude =
      some 0) ∧
    (postApiLocation ⟨some "u7", some "math", some 0, some 77.2⟩ none
      ⟨[], []⟩ 5).status = 400 ∧
    (postApiLocation ⟨some "u7", some "math", some 0, some 77.2⟩ none
      ⟨[], []⟩ 5).locationStored = false ∧
    (postApiLocation ⟨some "u7", some "math", some 0, some 77.2⟩ none
      ⟨[], []⟩ 5).attendance = (⟨[], []⟩ : Attendance) := by
  have h := C10_api_validation ⟨some "u7", some "math", some 0, some 77.2⟩
    none ⟨[], []⟩ 5
    (Or.inr (Or.inr (Or.inr (Or.inr (Or.inr (Or.inl rfl))))))
  exact ⟨rfl, h.1, h.2.1, h.2.2.1⟩
